import Mathlib

/-!
Verification of `aws-helper-scripts` against its specification.

The two scripts are embedded shallowly:
* `src/cost_savings/analyze_dynamo_provisions.py` — pricing constants, the
  on-demand price function, the provisioned-price estimator, the pricing-model
  detector, the per-table metric aggregation loop and the recommendation
  decision tree.
* `src/cleanup/add_tags_to_snapshots.py` — the per-snapshot tag composition of
  the instance pass and of the AMI pass.

Python floats are modelled as exact rationals (ℚ); Python `int(x)` truncation
toward zero is modelled by `pyInt`; `statistics.mean`, which raises
`StatisticsError` on an empty sequence, is modelled as an `Option`-returning
`pyMean` with `none` for that failure.
-/

namespace AnalyzeDynamo

/-- Pricing constants from the `dynamo_pricing` dictionary (source lines 39-43). -/
def dynamo_pricing_provisioned_write : ℚ := 65 / 100000

/-- Source line 41: `dynamo_pricing["provisioned_read"] = 0.00013`. -/
def dynamo_pricing_provisioned_read : ℚ := 13 / 100000

/-- Source line 42: `dynamo_pricing["on_demand_write"] = 1.25 / 1000000`. -/
def dynamo_pricing_on_demand_write : ℚ := (125 / 100) / 1000000

/-- Source line 43: `dynamo_pricing["on_demand_read"] = .25 / 1000000`. -/
def dynamo_pricing_on_demand_read : ℚ := (25 / 100) / 1000000

/-- Source line 44: the sum of the two provisioned unit prices per hour. -/
def minimum_provisioned_price : ℚ :=
  dynamo_pricing_provisioned_write + dynamo_pricing_provisioned_read

/-- Source lines 65-66: `calculate_on_demand_price(writes, reads)`. -/
def calculate_on_demand_price (writes reads : ℚ) : ℚ :=
  writes * dynamo_pricing_on_demand_write + reads * dynamo_pricing_on_demand_read

/-- Python `int(q)`: truncation toward zero. -/
def pyInt (q : ℚ) : ℤ := if 0 ≤ q then ⌊q⌋ else ⌈q⌉

/-- Python `statistics.mean`: raises `StatisticsError` (modelled `none`) on an
empty sequence, otherwise the exact arithmetic mean. -/
def pyMean (l : List ℚ) : Option ℚ :=
  if l.isEmpty then none else some (l.sum / l.length)

/-- Source lines 85 and 103: `int(statistics.mean(values) + .999)`, the rounded
average capacity used by the provisioned estimator. -/
def roundedAverage (l : List ℚ) : Option ℤ :=
  (pyMean l).map fun m => pyInt (m + 999 / 1000)

/-- Source lines 69-106, `calculate_provisioned_price`, as a function of the
lists of daily `Average` datapoint values fetched for
`ProvisionedReadCapacityUnits` and `ProvisionedWriteCapacityUnits`.
The read side is computed first, as in the source, so an empty read list fails
before the write list is examined.  Note that source line 86 multiplies the
averaged READ capacity by `dynamo_pricing["provisioned_write"]`. -/
def calculate_provisioned_price (readAvgs writeAvgs : List ℚ) : Option ℚ :=
  match roundedAverage readAvgs with
  | none => none
  | some average_provisioned_reads =>
    let provisioned_read_price : ℚ :=
      average_provisioned_reads * dynamo_pricing_provisioned_write * 720
    match roundedAverage writeAvgs with
    | none => none
    | some average_provisioned_writes =>
      let provisioned_write_price : ℚ :=
        average_provisioned_writes * dynamo_pricing_provisioned_write * 720
      some (provisioned_read_price + provisioned_write_price)

/-- The provisioned estimate as the specification words it (spec §4.3 and claim
C2): each capacity average is multiplied by ITS RESPECTIVE provisioned unit
price — reads at `0.00013`, writes at `0.00065` — and by 720 hours.  Kept
separate from `calculate_provisioned_price` for comparison. -/
def calculate_provisioned_price_spec (readAvgs writeAvgs : List ℚ) : Option ℚ :=
  match roundedAverage readAvgs with
  | none => none
  | some average_provisioned_reads =>
    let provisioned_read_price : ℚ :=
      average_provisioned_reads * dynamo_pricing_provisioned_read * 720
    match roundedAverage writeAvgs with
    | none => none
    | some average_provisioned_writes =>
      let provisioned_write_price : ℚ :=
        average_provisioned_writes * dynamo_pricing_provisioned_write * 720
      some (provisioned_read_price + provisioned_write_price)

/-- Source lines 109-115, `get_table_pricing_model`, as a function of the
`ReadCapacityUnits` and `WriteCapacityUnits` of the table description. -/
def get_table_pricing_model (read_capacity write_capacity : ℕ) : String :=
  if read_capacity = 0 ∧ write_capacity = 0 then "on-demand" else "provisioned"

/-- One CloudWatch datapoint of a daily metric series: the `Timestamp` is kept
as the elapsed-day index from the start of the 90-day window, the statistic
value (`Sum`) as a rational.  The aggregation loop of the source never reads
the timestamp. -/
structure Datapoint where
  day : ℕ
  value : ℚ
  deriving DecidableEq, Repr

/-- Source lines 162-175 (and identically 195-205): the aggregation loop.  The
accumulator `day` starts at 0 and is incremented once per DATAPOINT in the
returned list; the datapoint timestamp is never consulted.  Returns
(total sum, month-one sum, month-two sum, month-three sum). -/
def bucketLoop : List Datapoint → ℕ → ℚ × ℚ × ℚ × ℚ
  | [], _ => (0, 0, 0, 0)
  | metric :: rest, day =>
    let (s, m1, m2, m3) := bucketLoop rest (day + 1)
    if day < 30 then (s + metric.value, m1 + metric.value, m2, m3)
    else if day < 60 then (s + metric.value, m1, m2 + metric.value, m3)
    else if day < 90 then (s + metric.value, m1, m2, m3 + metric.value)
    else (s + metric.value, m1, m2, m3)

/-- The per-table aggregation of one metric series, source lines 157-175. -/
def aggregate (samples : List Datapoint) : ℚ × ℚ × ℚ × ℚ :=
  bucketLoop samples 0

/-- Bucket assignment as claim C3 and spec §4.1 word it: each sample is
assigned by its ELAPSED-DAY index from the window start, with boundaries at
day 30 and day 60; a day with no sample contributes zero.  Kept separate from
`aggregate` for comparison. -/
def bucketsByDay (samples : List Datapoint) : ℚ × ℚ × ℚ :=
  samples.foldl
    (fun acc metric =>
      let (m1, m2, m3) := acc
      if metric.day < 30 then (m1 + metric.value, m2, m3)
      else if metric.day < 60 then (m1, m2 + metric.value, m3)
      else if metric.day < 90 then (m1, m2, m3 + metric.value)
      else acc)
    (0, 0, 0)

/-- The outcomes of the decision tree, one per distinct log line of source
lines 218-260. -/
inductive Recommendation where
  | onDemandConfirmedOptimal
  | onDemandWouldSave
  | onDemandBestMonthly
  | onDemandWouldSaveMonthly
  | onDemandBestBelowMinimum
  | onDemandWouldSaveBelowMinimum
  | provisionedExceedsOnDemand
  | noSuggestion
  deriving DecidableEq, Repr

/-- The guard of decision branch 3, source lines 235-237: each monthly
on-demand price is compared against `minimum_provisioned_price` itself. -/
def month_prices_below_minimum (p1 p2 p3 : ℚ) : Prop :=
  p1 < minimum_provisioned_price ∧ p2 < minimum_provisioned_price ∧
    p3 < minimum_provisioned_price

instance (p1 p2 p3 : ℚ) : Decidable (month_prices_below_minimum p1 p2 p3) := by
  unfold month_prices_below_minimum; infer_instance

/-- Source lines 209-260: the monthly on-demand prices and the decision tree
over the aggregates of one table.  `pricing_model` is the string produced by
`get_table_pricing_model`. -/
def recommend (sum_writes sum_reads : ℚ)
    (sum_writes_month_one sum_writes_month_two sum_writes_month_three : ℚ)
    (sum_reads_month_one sum_reads_month_two sum_reads_month_three : ℚ)
    (provisioned_price : ℚ) (pricing_model : String) : Recommendation :=
  let month_one_price_on_demand :=
    calculate_on_demand_price sum_writes_month_one sum_reads_month_one
  let month_two_price_on_demand :=
    calculate_on_demand_price sum_writes_month_two sum_reads_month_two
  let month_three_price_on_demand :=
    calculate_on_demand_price sum_writes_month_three sum_reads_month_three
  if sum_writes < 2592000 ∧ sum_reads < 2592000 then
    if pricing_model = "on-demand" then .onDemandConfirmedOptimal
    else .onDemandWouldSave
  else if sum_writes_month_one < 2592000 ∧ sum_writes_month_two < 2592000 ∧
      sum_writes_month_three < 2592000 ∧ sum_reads_month_one < 2592000 ∧
      sum_reads_month_two < 2592000 ∧ sum_reads_month_three < 2592000 then
    if pricing_model = "on-demand" then .onDemandBestMonthly
    else .onDemandWouldSaveMonthly
  else if month_prices_below_minimum month_one_price_on_demand
      month_two_price_on_demand month_three_price_on_demand then
    if pricing_model = "on-demand" then .onDemandBestBelowMinimum
    else .onDemandWouldSaveBelowMinimum
  else if month_one_price_on_demand < provisioned_price ∧
      month_two_price_on_demand < provisioned_price ∧
      month_three_price_on_demand < provisioned_price then
    .provisionedExceedsOnDemand
  else .noSuggestion

end AnalyzeDynamo

namespace TagSnapshots

/-- One EC2 tag: a Key and a Value. -/
structure Tag where
  key : String
  value : String
  deriving DecidableEq, Repr

/-- Python `str.startswith`, modelled on the character lists of the strings. -/
def strStartsWith (s p : String) : Bool :=
  List.isPrefixOf p.data s.data

/-- The existing-Name-tag test of source lines 41-45 (instance pass) and
124-128 (AMI pass): `none` models a snapshot without a `Tags` entry
(respectively `snapshot.tags` being `None`); otherwise any tag with key
`Name` counts. -/
def hasNameTag : Option (List Tag) → Bool
  | none => false
  | some ts => ts.any fun t => t.key = "Name"

/-- Source line 48: the instance pass performs the `describe_instances`
lookup for a snapshot exactly when its description starts with
`Created by CreateImage`. -/
def instanceLookupPerformed (description : String) : Bool :=
  strStartsWith description "Created by CreateImage"

/-- Source lines 39-84: the tags written by the instance pass for one
snapshot.  `snapTags` is the snapshot `Tags` entry, `instTags` the `Tags` of
the looked-up instance — `none` when the lookup failed with `ClientError` or
the instance carries no `Tags` entry, in which cases nothing is written.  For
each instance tag with key `Name`, one tag is written whose key is
`instance_name` when the snapshot already has a `Name` tag and `Name`
otherwise, and whose value is the instance tag value. -/
def instancePassTags (snapTags : Option (List Tag)) (description : String)
    (instTags : Option (List Tag)) : List Tag :=
  if strStartsWith description "Created by CreateImage" then
    let has_name_tag := hasNameTag snapTags
    let tag_key := if has_name_tag then "instance_name" else "Name"
    ((instTags.getD []).filter fun t => t.key = "Name").map
      fun t => ⟨tag_key, t.value⟩
  else []

/-- Source lines 107-152: the tag list composed by the AMI pass for one
snapshot referenced from a block device mapping of an owned image.  The three
`ami_*` tags are always present; a `Name` tag is appended only when the
snapshot has none, preferring the image description and falling back to the
image location when the description is empty. -/
def amiPassTags (snapTags : Option (List Tag))
    (image_id description image_location : String) : List Tag :=
  let new_tags : List Tag :=
    [⟨"ami_image_id", image_id⟩, ⟨"ami_description", description⟩,
      ⟨"ami_image_location", image_location⟩]
  let has_name_tag := hasNameTag snapTags
  if ¬ has_name_tag then
    if description.length > 0 then
      new_tags ++ [⟨"Name", "copied from AMI: " ++ description⟩]
    else
      new_tags ++ [⟨"Name", "copied from AMI: " ++ image_location⟩]
  else
    new_tags

/-- Modelled from the spec: `TagWriter.applyTags` — the EC2 `create_tags`
call, which is not part of the sources — is an idempotent upsert by key
(spec §6): a written tag replaces the value of every existing tag with the
same key and is appended when the key is new. -/
def upsertTag (tags : List Tag) (t : Tag) : List Tag :=
  if tags.any fun u => u.key = t.key then
    tags.map fun u => if u.key = t.key then t else u
  else tags ++ [t]

/-- Modelled from the spec: applying a list of tag writes in order. -/
def applyTags (existing : List Tag) (writes : List Tag) : List Tag :=
  writes.foldl upsertTag existing

/-- The value of the tag with key `k`, when one is present. -/
def getTagValue (tags : List Tag) (k : String) : Option String :=
  (tags.find? fun t => t.key = k).map Tag.value

end TagSnapshots

namespace AnalyzeDynamo

/-- C1: whenever both 90-day consumed sums are strictly below 2,592,000, the
decision tree takes branch 1 and no later branch, emitting
`onDemandConfirmedOptimal` exactly when the current pricing model is
on-demand and `onDemandWouldSave` otherwise, for every choice of monthly
bucket values and provisioned estimate. -/
theorem C1_branch_one_always_fires (sum_writes sum_reads w1 w2 w3 r1 r2 r3
    provisioned_price : ℚ) (pricing_model : String)
    (hw : sum_writes < 2592000) (hr : sum_reads < 2592000) :
    recommend sum_writes sum_reads w1 w2 w3 r1 r2 r3 provisioned_price
        pricing_model =
      if pricing_model = "on-demand" then .onDemandConfirmedOptimal
      else .onDemandWouldSave := by
  unfold recommend
  rw [if_pos ⟨hw, hr⟩]

/-- Witness for C1 at the end-to-end scenario of spec §8: write sum 100, read
sum 50, current mode provisioned. -/
theorem C1_branch_one_always_fires_witness :
    (100 : ℚ) < 2592000 ∧ (50 : ℚ) < 2592000 ∧
      recommend 100 50 1 2 3 4 5 6 7 "provisioned" =
        (if "provisioned" = "on-demand" then
          Recommendation.onDemandConfirmedOptimal
        else Recommendation.onDemandWouldSave) :=
  ⟨by norm_num, by norm_num,
    C1_branch_one_always_fires 100 50 1 2 3 4 5 6 7 "provisioned"
      (by norm_num) (by norm_num)⟩

/-- C2: at read averages `[4]` and write averages `[6]`, the source prices the
read capacity at the provisioned-write rate (line 86), yielding
(4 + 6) × 0.00065 × 720 = 4.68, while the claimed formula with reads at
0.00013 yields 4 × 0.00013 × 720 + 6 × 0.00065 × 720 = 3.1824. -/
theorem C2_reads_priced_at_write_rate :
    calculate_provisioned_price [4] [6] = some (117 / 25) ∧
      calculate_provisioned_price_spec [4] [6] = some (1989 / 625) ∧
      (117 / 25 : ℚ) ≠ 1989 / 625 := by
  refine ⟨?_, ?_, by norm_num⟩ <;>
    norm_num [calculate_provisioned_price, calculate_provisioned_price_spec,
      roundedAverage, pyMean, pyInt, dynamo_pricing_provisioned_write,
      dynamo_pricing_provisioned_read, Int.floor_eq_iff]

/-- C3: with samples only on elapsed days 0 and 30 (days 1-29 missing), the
aggregation loop of the source counts the day-30 sample in the month-one
bucket, because its positional index in the datapoint list is 1; assignment by
elapsed-day index as the claim states it puts that sample in month two. -/
theorem C3_missing_days_shift_buckets :
    aggregate [⟨0, 5⟩, ⟨30, 7⟩] = (12, 12, 0, 0) ∧
      bucketsByDay [⟨0, 5⟩, ⟨30, 7⟩] = (5, 7, 0) := by
  constructor <;> norm_num [aggregate, bucketLoop, bucketsByDay]

/-- C4: an empty datapoint sequence, on either the read side or the write
side, makes the provisioned estimator signal the defined no-data outcome
(`none`, the model of `statistics.StatisticsError`), never a numeric error:
the mean is only formed on a non-empty list. -/
theorem C4_empty_sequence_signals_no_data (readAvgs writeAvgs : List ℚ) :
    calculate_provisioned_price [] writeAvgs = none ∧
      calculate_provisioned_price readAvgs [] = none := by
  have hnone : roundedAverage [] = none := by simp [roundedAverage, pyMean]
  constructor
  · simp [calculate_provisioned_price, hnone]
  · cases h : roundedAverage readAvgs <;>
      simp [calculate_provisioned_price, h, hnone]

/-- C5: with all three monthly on-demand prices equal to $0.01, the guard of
decision branch 3 in the source rejects — it compares each monthly price
against the hourly `minimum_provisioned_price` of $0.00078 without the ×720
normalization — although $0.01 is strictly below
`minimum_provisioned_price` × 720 = $0.5616, the comparison the claim states. -/
theorem C5_branch_three_guard_is_hourly :
    ¬ month_prices_below_minimum (1 / 100) (1 / 100) (1 / 100) ∧
      (1 / 100 : ℚ) < minimum_provisioned_price * 720 := by
  constructor <;>
    norm_num [month_prices_below_minimum, minimum_provisioned_price,
      dynamo_pricing_provisioned_write, dynamo_pricing_provisioned_read]

/-- C6 counterexample: for the single datapoint `4.0005` the source computes
`int(4.0005 + .999) = 4`, but the exact mathematical ceiling of the mean is 5:
a positive fractional part below 0.001 does not round up. -/
theorem C6_small_fraction_not_rounded_up :
    roundedAverage [8001 / 2000] = some 4 ∧ ⌈(8001 : ℚ) / 2000⌉ = 5 := by
  constructor <;>
    norm_num [roundedAverage, pyMean, pyInt, Int.floor_eq_iff, Int.ceil_eq_iff]

/-- C6 as amended: the rounded capacity is `int(mean + .999)`, which equals
the exact ceiling of a non-negative mean exactly when the ceiling is within
0.999 of the mean, i.e. when the fractional part of the mean is zero or at
least 0.001; the particular means 4.0 and 6.0 round to 4 and 6. -/
theorem C6_rounding_is_floor_plus_999 (l : List ℚ) (hne : l ≠ [])
    (hnn : 0 ≤ l.sum / (l.length : ℚ))
    (hfrac : (⌈l.sum / (l.length : ℚ)⌉ : ℚ) ≤ l.sum / (l.length : ℚ) + 999 / 1000) :
    roundedAverage l = some ⌈l.sum / (l.length : ℚ)⌉ := by
  have hm : pyMean l = some (l.sum / (l.length : ℚ)) := by
    simp [pyMean, hne]
  set m := l.sum / (l.length : ℚ) with hmdef
  have h0 : 0 ≤ m + 999 / 1000 := by linarith
  have hceil : (m : ℚ) ≤ (⌈m⌉ : ℚ) := Int.le_ceil m
  simp only [roundedAverage, hm, Option.map_some', pyInt, if_pos h0,
    Option.some_inj]
  rw [Int.floor_eq_iff]
  constructor
  · exact hfrac
  · linarith

/-- Witness for C6 as amended, at the single datapoint sequence `[4.0]` from
spec §8. -/
theorem C6_rounding_is_floor_plus_999_witness :
    ([(4 : ℚ)] ≠ []) ∧ (0 ≤ [(4 : ℚ)].sum / ([(4 : ℚ)].length : ℚ)) ∧
      ((⌈[(4 : ℚ)].sum / ([(4 : ℚ)].length : ℚ)⌉ : ℚ) ≤
        [(4 : ℚ)].sum / ([(4 : ℚ)].length : ℚ) + 999 / 1000) ∧
      roundedAverage [(4 : ℚ)] = some ⌈[(4 : ℚ)].sum / ([(4 : ℚ)].length : ℚ)⌉ :=
  ⟨by simp, by norm_num, by norm_num,
    C6_rounding_is_floor_plus_999 [(4 : ℚ)] (by simp) (by norm_num)
      (by norm_num)⟩

/-- C9: the pricing model string is `on-demand` exactly when both provisioned
capacities of the table description are zero, and `provisioned` in every other
case. -/
theorem C9_pricing_model_detection (read_capacity write_capacity : ℕ) :
    (get_table_pricing_model read_capacity write_capacity = "on-demand" ↔
      read_capacity = 0 ∧ write_capacity = 0) ∧
    (get_table_pricing_model read_capacity write_capacity = "provisioned" ↔
      ¬(read_capacity = 0 ∧ write_capacity = 0)) := by
  unfold get_table_pricing_model
  by_cases h : read_capacity = 0 ∧ write_capacity = 0 <;> simp [h]

end AnalyzeDynamo

namespace TagSnapshots

set_option maxRecDepth 10000

theorem find_key_after_replace (tags : List Tag) (t : Tag) (k : String)
    (h : t.key ≠ k) :
    List.find? (fun u => u.key = k)
        (tags.map fun u => if u.key = t.key then t else u) =
      List.find? (fun u => u.key = k) tags := by
  induction tags with
  | nil => rfl
  | cons a rest ih =>
    simp only [List.map_cons, List.find?_cons]
    by_cases ha : a.key = t.key
    · simp only [ha, if_pos rfl]
      have h1 : (decide (t.key = k)) = false := by simp [h]
      have h2 : (decide (a.key = k)) = false := by simp [ha, h]
      simp [h1, h2, ih]
    · simp only [if_neg ha]
      by_cases hk : a.key = k
      · simp [hk]
      · simp [hk, ih]

theorem getTagValue_upsert_ne (tags : List Tag) (t : Tag) (k : String)
    (h : t.key ≠ k) :
    getTagValue (upsertTag tags t) k = getTagValue tags k := by
  unfold upsertTag getTagValue
  by_cases hmem : (tags.any fun u => u.key = t.key) = true
  · rw [if_pos hmem, find_key_after_replace tags t k h]
  · rw [if_neg hmem, List.find?_append]
    have : List.find? (fun u => u.key = k) [t] = none := by simp [h]
    simp [this]

theorem getTagValue_applyTags_of_not_written (existing writes : List Tag)
    (k : String) (h : ∀ t ∈ writes, t.key ≠ k) :
    getTagValue (applyTags existing writes) k = getTagValue existing k := by
  induction writes generalizing existing with
  | nil => rfl
  | cons w rest ih =>
    have hw : w.key ≠ k := h w (List.mem_cons_self _ _)
    have hrest : ∀ t ∈ rest, t.key ≠ k := fun t ht =>
      h t (List.mem_cons_of_mem _ ht)
    show getTagValue (applyTags (upsertTag existing w) rest) k = _
    rw [ih (upsertTag existing w) hrest, getTagValue_upsert_ne existing w k hw]

/-- C7: for a snapshot that already carries a `Name` tag, neither pass writes
a tag with key `Name` — every instance-derived candidate name is written
under `instance_name` — and after applying all the written tags the value of
the existing `Name` tag is unchanged. -/
theorem C7_name_tag_never_overwritten (existing : List Tag)
    (description : String) (instTags : Option (List Tag))
    (image_id ami_desc image_location : String)
    (h : hasNameTag (some existing) = true) :
    (∀ t ∈ instancePassTags (some existing) description instTags,
        t.key = "instance_name") ∧
    (∀ t ∈ amiPassTags (some existing) image_id ami_desc image_location,
        t.key ≠ "Name") ∧
    getTagValue (applyTags existing
        (instancePassTags (some existing) description instTags ++
          amiPassTags (some existing) image_id ami_desc image_location))
        "Name" = getTagValue existing "Name" := by
  have h1 : ∀ t ∈ instancePassTags (some existing) description instTags,
      t.key = "instance_name" := by
    intro t ht
    unfold instancePassTags at ht
    by_cases hd : strStartsWith description "Created by CreateImage" = true
    · rw [if_pos hd] at ht
      simp only [h, if_pos rfl, List.mem_map] at ht
      obtain ⟨u, _, rfl⟩ := ht
      rfl
    · rw [if_neg hd] at ht
      simp at ht
  have h2 : ∀ t ∈ amiPassTags (some existing) image_id ami_desc image_location,
      t.key ≠ "Name" := by
    intro t ht
    unfold amiPassTags at ht
    simp only [h] at ht
    simp at ht
    rcases ht with rfl | rfl | rfl <;> simp
  refine ⟨h1, h2, ?_⟩
  apply getTagValue_applyTags_of_not_written
  intro t ht
  rcases List.mem_append.mp ht with hin | hami
  · rw [h1 t hin]
    simp
  · exact h2 t hami

/-- Witness for C7: snapshot with existing `Name=foo`, instance candidate
name `bar` (spec §8), and arbitrary AMI fields. -/
theorem C7_name_tag_never_overwritten_witness :
    hasNameTag (some [Tag.mk "Name" "foo"]) = true ∧
    ((∀ t ∈ instancePassTags (some [Tag.mk "Name" "foo"])
          "Created by CreateImage(i-1)" (some [Tag.mk "Name" "bar"]),
        t.key = "instance_name") ∧
      (∀ t ∈ amiPassTags (some [Tag.mk "Name" "foo"]) "ami-1" "d" "loc",
          t.key ≠ "Name") ∧
      getTagValue (applyTags [Tag.mk "Name" "foo"]
          (instancePassTags (some [Tag.mk "Name" "foo"])
              "Created by CreateImage(i-1)" (some [Tag.mk "Name" "bar"]) ++
            amiPassTags (some [Tag.mk "Name" "foo"]) "ami-1" "d" "loc"))
          "Name" = getTagValue [Tag.mk "Name" "foo"] "Name") :=
  ⟨by decide,
    C7_name_tag_never_overwritten [Tag.mk "Name" "foo"]
      "Created by CreateImage(i-1)" (some [Tag.mk "Name" "bar"])
      "ami-1" "d" "loc" (by decide)⟩

/-- C8: for a snapshot with no existing `Name` tag, the AMI pass composes a
`Name` tag reading `copied from AMI: ` followed by the image description when
it is non-empty and by the image location otherwise; the three `ami_*` tags
are attached for every snapshot. -/
theorem C8_ami_pass_synthesizes_name (snapTags : Option (List Tag))
    (image_id description image_location : String)
    (h : hasNameTag snapTags = false) :
    Tag.mk "Name" ("copied from AMI: " ++
        (if description.length > 0 then description else image_location)) ∈
      amiPassTags snapTags image_id description image_location ∧
    ∀ anyTags : Option (List Tag),
      Tag.mk "ami_image_id" image_id ∈
          amiPassTags anyTags image_id description image_location ∧
        Tag.mk "ami_description" description ∈
          amiPassTags anyTags image_id description image_location ∧
        Tag.mk "ami_image_location" image_location ∈
          amiPassTags anyTags image_id description image_location := by
  constructor
  · unfold amiPassTags
    simp only [h]
    by_cases hd : description.length > 0 <;> simp [hd]
  · intro anyTags
    unfold amiPassTags
    by_cases hn : hasNameTag anyTags = true <;>
      by_cases hd : description.length > 0 <;> simp [hn, hd]

/-- Witness for C8: the spec §8 example — AMI with empty description and
location `ami-123/img`, snapshot with no tags at all. -/
theorem C8_ami_pass_synthesizes_name_witness :
    hasNameTag (none : Option (List Tag)) = false ∧
    (Tag.mk "Name" ("copied from AMI: " ++
          (if ("" : String).length > 0 then "" else "ami-123/img")) ∈
        amiPassTags none "ami-123" "" "ami-123/img" ∧
      ∀ anyTags : Option (List Tag),
        Tag.mk "ami_image_id" "ami-123" ∈
            amiPassTags anyTags "ami-123" "" "ami-123/img" ∧
          Tag.mk "ami_description" "" ∈
            amiPassTags anyTags "ami-123" "" "ami-123/img" ∧
          Tag.mk "ami_image_location" "ami-123/img" ∈
            amiPassTags anyTags "ami-123" "" "ami-123/img") :=
  ⟨rfl, C8_ami_pass_synthesizes_name none "ami-123" "" "ami-123/img" rfl⟩

/-- C10: in the instance pass, a snapshot whose description does not start
with `Created by CreateImage` is left alone — no instance lookup is performed
and no tags are written. -/
theorem C10_nonmatching_description_untouched (snapTags : Option (List Tag))
    (description : String) (instTags : Option (List Tag))
    (h : strStartsWith description "Created by CreateImage" = false) :
    instancePassTags snapTags description instTags = [] ∧
      instanceLookupPerformed description = false := by
  refine ⟨?_, h⟩
  unfold instancePassTags
  rw [if_neg]
  simp [h]

/-- Witness for C10 at the description `foo`. -/
theorem C10_nonmatching_description_untouched_witness :
    strStartsWith "foo" "Created by CreateImage" = false ∧
    (instancePassTags (some [Tag.mk "x" "y"]) "foo" (some [Tag.mk "Name" "bar"]) = [] ∧
      instanceLookupPerformed "foo" = false) :=
  ⟨by decide,
    C10_nonmatching_description_untouched (some [Tag.mk "x" "y"]) "foo"
      (some [Tag.mk "Name" "bar"]) (by decide)⟩

end TagSnapshots
